import Mathlib

/-!
# Verification of the Everglow-Image bridge backend (`app.py`)

Shallow embedding of `app.py`, a Streamlit backend that bridges a browser
front end to the Gemini image API. Byte strings are `List Nat` with each
element `< 256`. External libraries (PIL, the genai SDK transport,
Streamlit secrets) are modelled as explicit oracle parameters so that the
control flow of `app.py` itself is embedded exactly.
-/

namespace Everglow

/-! ## Encoding layer: Python `base64.b64encode` / `base64.b64decode` -/

/-- Errors that Python raises on the paths embedded here. -/
inductive PyError where
  | binasciiError (msg : String)
  | typeError (msg : String)
  deriving DecidableEq, Repr

/-- The standard base64 alphabet, as indexed by `base64.b64encode`:
`A`–`Z` = 0–25, `a`–`z` = 26–51, `0`–`9` = 52–61, `+` = 62, `/` = 63. -/
def b64AlphaChar (n : Nat) : Char :=
  if n < 26 then Char.ofNat (65 + n)
  else if n < 52 then Char.ofNat (97 + (n - 26))
  else if n < 62 then Char.ofNat (48 + (n - 52))
  else if n = 62 then '+'
  else '/'

/-- Inverse of the base64 alphabet table: the 6-bit value of a character,
or `none` for a character outside the alphabet. -/
def b64CharVal (c : Char) : Option Nat :=
  if 'A' ≤ c ∧ c ≤ 'Z' then some (c.toNat - 65)
  else if 'a' ≤ c ∧ c ≤ 'z' then some (26 + (c.toNat - 97))
  else if '0' ≤ c ∧ c ≤ '9' then some (52 + (c.toNat - 48))
  else if c = '+' then some 62
  else if c = '/' then some 63
  else none

/-- `base64.b64encode`: bytes to base64 characters, 3 bytes to 4 characters,
with `=` padding and no line breaks (Python's `b64encode` inserts none). -/
def b64encodeBytes : List Nat → List Char
  | a :: b :: c :: rest =>
      b64AlphaChar (a / 4) :: b64AlphaChar ((a % 4) * 16 + b / 16) ::
      b64AlphaChar ((b % 16) * 4 + c / 64) :: b64AlphaChar (c % 64) ::
      b64encodeBytes rest
  | [a, b] =>
      [b64AlphaChar (a / 4), b64AlphaChar ((a % 4) * 16 + b / 16),
       b64AlphaChar ((b % 16) * 4), '=']
  | [a] =>
      [b64AlphaChar (a / 4), b64AlphaChar ((a % 4) * 16), '=', '=']
  | [] => []

/-- `base64.b64encode(b).decode("utf-8")` as used at `app.py:101`. -/
def b64encode (b : List Nat) : String := ⟨b64encodeBytes b⟩

/-- Reassemble bytes from 6-bit values, as `binascii.a2b_base64` does:
full quads give 3 bytes; a trailing pair or triple (which Python only
accepts when enough `=` padding follows) gives 1 or 2 bytes, discarding
the unused low bits. -/
def decodeSextets : List Nat → List Nat
  | w :: x :: y :: z :: rest =>
      (w * 4 + x / 16) :: ((x % 16) * 16 + y / 4) :: ((y % 4) * 64 + z) ::
      decodeSextets rest
  | [x, y] => [x * 4 + y / 16]
  | [x, y, z] => [x * 4 + y / 16, (y % 16) * 16 + z / 4]
  | _ => []

/-- `base64.b64decode` on the characters of a string (default
`validate=False`): characters outside the alphabet and `=` are discarded;
data characters are the alphabet characters before the first `=`; a data
length of 4k+1 and missing padding raise `binascii.Error`; otherwise the
data decodes, ignoring anything after the padding. -/
def pyB64decodeChars (l : List Char) : Except PyError (List Nat) :=
  let cleaned := l.filter fun c => (b64CharVal c).isSome || c == '='
  let dataChars := cleaned.takeWhile fun c => c != '='
  let pads := (cleaned.drop dataChars.length).filter fun c => c == '='
  let sextets := dataChars.filterMap b64CharVal
  if sextets.length % 4 == 1 then
    .error (.binasciiError "Invalid base64-encoded string")
  else if sextets.length % 4 == 2 && pads.length < 2 then
    .error (.binasciiError "Incorrect padding")
  else if sextets.length % 4 == 3 && pads.length < 1 then
    .error (.binasciiError "Incorrect padding")
  else
    .ok (decodeSextets sextets)

/-- `base64.b64decode` on a string argument. -/
def pyB64decode (s : String) : Except PyError (List Nat) :=
  pyB64decodeChars s.data

/-- `base64.b64decode(x)` where `x` came from `dict.get` and may be `None`
(`app.py:154`): Python raises `TypeError` on `None`. -/
def pyB64decodeOpt : Option String → Except PyError (List Nat)
  | none => .error (.typeError "argument should be a bytes-like object or ASCII string")
  | some s => pyB64decode s

example : b64encode [65] = "QQ==" := by decide
example : b64encode [65, 66] = "QUI=" := by decide
example : b64encode [65, 66, 67] = "QUJD" := by decide
example : pyB64decode "QQ==" = .ok [65] := by rfl
example : pyB64decode "QR==" = .ok [65] := by rfl
example : pyB64decode "QQ" = .error (.binasciiError "Incorrect padding") := by rfl
example : pyB64decode "" = .ok [] := by rfl
example : pyB64decode "QQQQ" = .ok [65, 4, 16] := by rfl
example : pyB64decode "QQQ=" = .ok [65, 4] := by rfl

/-! ### Round-trip properties of the encoding layer -/

/-- The 6-bit values the encoder produces, before the alphabet map. -/
def encodeSextets : List Nat → List Nat
  | a :: b :: c :: rest =>
      (a / 4) :: ((a % 4) * 16 + b / 16) :: ((b % 16) * 4 + c / 64) :: (c % 64) ::
      encodeSextets rest
  | [a, b] => [a / 4, (a % 4) * 16 + b / 16, (b % 16) * 4]
  | [a] => [a / 4, (a % 4) * 16]
  | [] => []

/-- Number of `=` padding characters the encoder appends. -/
def padLen (b : List Nat) : Nat :=
  match b.length % 3 with
  | 1 => 2
  | 2 => 1
  | _ => 0

/-- All bytes of a Python `bytes` value are below 256. -/
def BytesValid (b : List Nat) : Prop := ∀ y ∈ b, y < 256

instance (b : List Nat) : Decidable (BytesValid b) := by
  unfold BytesValid; infer_instance

theorem b64CharVal_b64AlphaChar : ∀ n < 64, b64CharVal (b64AlphaChar n) = some n := by
  decide

theorem b64encodeBytes_decomp (b : List Nat) :
    b64encodeBytes b = (encodeSextets b).map b64AlphaChar ++ List.replicate (padLen b) '=' := by
  induction b using encodeSextets.induct with
  | case1 a b c rest ih =>
      have hp : padLen (a :: b :: c :: rest) = padLen rest := by
        unfold padLen
        rw [show (a :: b :: c :: rest).length % 3 = rest.length % 3 by simp; omega]
      simp only [b64encodeBytes, encodeSextets, List.map_cons, hp, ih, List.cons_append]
  | case2 a b => rfl
  | case3 a => rfl
  | case4 => rfl

theorem encodeSextets_lt (b : List Nat) (hb : BytesValid b) :
    ∀ x ∈ encodeSextets b, x < 64 := by
  induction b using encodeSextets.induct with
  | case1 a b c rest ih =>
      have ha := hb a (by simp)
      have hb2 := hb b (by simp)
      have hc := hb c (by simp)
      have hrest : BytesValid rest := fun y hy => hb y (by simp [hy])
      intro x hx
      simp only [encodeSextets, List.mem_cons] at hx
      rcases hx with rfl | rfl | rfl | rfl | hx
      · omega
      · omega
      · omega
      · omega
      · exact ih hrest x hx
  | case2 a b =>
      have ha := hb a (by simp)
      have hb2 := hb b (by simp)
      intro x hx
      simp only [encodeSextets, List.mem_cons, List.not_mem_nil, or_false] at hx
      rcases hx with rfl | rfl | rfl <;> omega
  | case3 a =>
      have ha := hb a (by simp)
      intro x hx
      simp only [encodeSextets, List.mem_cons, List.not_mem_nil, or_false] at hx
      rcases hx with rfl | rfl <;> omega
  | case4 => intro x hx; simp [encodeSextets] at hx

theorem decodeSextets_encodeSextets (b : List Nat) (hb : BytesValid b) :
    decodeSextets (encodeSextets b) = b := by
  induction b using encodeSextets.induct with
  | case1 a b c rest ih =>
      have ha := hb a (by simp)
      have hb2 := hb b (by simp)
      have hc := hb c (by simp)
      have hrest : BytesValid rest := fun y hy => hb y (by simp [hy])
      simp only [encodeSextets, decodeSextets, List.cons.injEq]
      exact ⟨by omega, by omega, by omega, ih hrest⟩
  | case2 a b =>
      have ha := hb a (by simp)
      have hb2 := hb b (by simp)
      simp only [encodeSextets, decodeSextets, List.cons.injEq, and_true]
      constructor <;> omega
  | case3 a =>
      have ha := hb a (by simp)
      simp only [encodeSextets, decodeSextets, List.cons.injEq, and_true]
      omega
  | case4 => rfl

theorem encodeSextets_length_mod (b : List Nat) :
    (encodeSextets b).length % 4 =
      match b.length % 3 with
      | 1 => 2
      | 2 => 3
      | _ => 0 := by
  induction b using encodeSextets.induct with
  | case1 a b c rest ih =>
      rw [show (a :: b :: c :: rest).length % 3 = rest.length % 3 by simp; omega]
      simp only [encodeSextets, List.length_cons]
      rw [show (encodeSextets rest).length + 1 + 1 + 1 + 1 = (encodeSextets rest).length + 4 by
        omega, Nat.add_mod_right]
      exact ih
  | case2 a b => rfl
  | case3 a => rfl
  | case4 => rfl

theorem takeWhile_append_all {p : Char → Bool} (l1 l2 : List Char) (h : ∀ x ∈ l1, p x) :
    (l1 ++ l2).takeWhile p = l1 ++ l2.takeWhile p := by
  induction l1 with
  | nil => simp
  | cons a t ih => simp_all [List.takeWhile_cons]

theorem filterMap_charVal_map (l : List Nat) (h : ∀ x ∈ l, x < 64) :
    ((l.map b64AlphaChar).filterMap b64CharVal) = l := by
  induction l with
  | nil => rfl
  | cons a t ih =>
      simp only [List.map_cons, List.filterMap_cons,
        b64CharVal_b64AlphaChar a (h a (by simp))]
      rw [ih fun x hx => h x (by simp [hx])]

theorem mapAlpha_all_alpha (l : List Nat) (h : ∀ x ∈ l, x < 64) :
    ∀ c ∈ l.map b64AlphaChar, (b64CharVal c).isSome := by
  intro c hc
  rcases List.mem_map.mp hc with ⟨x, hx, rfl⟩
  simp [Option.isSome_iff_exists, b64CharVal_b64AlphaChar x (h x hx)]

/-- Round-trip, first law: decoding an encoded byte string recovers it.
This is `base64.b64decode(base64.b64encode(b)) == b`. -/
theorem pyB64decode_b64encode (b : List Nat) (hb : BytesValid b) :
    pyB64decode (b64encode b) = .ok b := by
  have hlt := encodeSextets_lt b hb
  have halpha := mapAlpha_all_alpha (encodeSextets b) hlt
  show pyB64decodeChars (b64encodeBytes b) = .ok b
  rw [b64encodeBytes_decomp]
  unfold pyB64decodeChars
  have hfilter :
      (((encodeSextets b).map b64AlphaChar ++ List.replicate (padLen b) '=').filter
        fun c => (b64CharVal c).isSome || c == '=') =
      (encodeSextets b).map b64AlphaChar ++ List.replicate (padLen b) '=' := by
    refine List.filter_eq_self.mpr ?_
    intro a ha
    rcases List.mem_append.mp ha with h | h
    · simp [halpha a h]
    · rw [List.eq_of_mem_replicate h]; simp
  have htake :
      (((encodeSextets b).map b64AlphaChar ++ List.replicate (padLen b) '=').takeWhile
        fun c => c != '=') = (encodeSextets b).map b64AlphaChar := by
    rw [takeWhile_append_all]
    · have : (List.replicate (padLen b) '=').takeWhile (fun c => c != '=') = [] := by
        cases padLen b with
        | zero => rfl
        | succ n => simp [List.replicate_succ, List.takeWhile_cons]
      simp [this]
    · intro x hx
      have := halpha x hx
      simp only [bne_iff_ne, ne_eq]
      intro heq
      rw [heq] at this
      simp [b64CharVal] at this
  simp only [hfilter, htake]
  rw [List.drop_left]
  rw [filterMap_charVal_map _ hlt]
  have hpadfilter : ((List.replicate (padLen b) '=').filter fun c => c == '=').length
      = padLen b := by
    rw [List.filter_eq_self.mpr (fun a ha => by rw [List.eq_of_mem_replicate ha]; simp)]
    simp
  rw [hpadfilter]
  rw [encodeSextets_length_mod]
  have hm : b.length % 3 = 0 ∨ b.length % 3 = 1 ∨ b.length % 3 = 2 := by omega
  have hdec := decodeSextets_encodeSextets b hb
  rcases hm with h | h | h <;>
    simp [h, padLen, hdec]

/-! ## Model of the external collaborators

`app.py` uses PIL (`Image.open`, `image.save`), the genai SDK
(`client.models.generate_content`) and Streamlit. These are not part of
the repository; they are modelled as explicit oracle parameters
(`AppEnv`), universally quantified in the theorems, so that only the
control flow of `app.py` itself is fixed by the embedding. -/

/-- Abstract PIL image object (result of `Image.open`). -/
structure PILImage where
  pixels : List Nat
  deriving DecidableEq, Repr

/-- One element of the `contents` list passed to `generate_content` at
`app.py:60-63`: the PIL image object, or a text string. -/
inductive ContentPart where
  | image (img : PILImage)
  | text (s : String)
  deriving DecidableEq, Repr

/-- The genai SDK's generation config (`response_mime_type`,
`response_schema`). `app.py` never constructs one: `generate_content` is
called without a `config` argument. -/
structure GenerateContentConfig where
  response_mime_type : Option String
  response_schema : Option String
  deriving DecidableEq, Repr

/-- The keyword arguments `app.py:58-64` passes to
`client.models.generate_content`: `model`, `contents`, and the `config`
parameter (left at its default `None` — the call site passes none). -/
structure GenaiRequest where
  model : String
  contents : List ContentPart
  config : Option GenerateContentConfig
  deriving DecidableEq, Repr

/-- Reply container shape of the genai service:
`candidates[0].content.parts[0].text`. -/
structure RespPart where
  text : Option String
  deriving DecidableEq, Repr

structure RespContent where
  parts : List RespPart
  deriving DecidableEq, Repr

structure Candidate where
  content : RespContent
  deriving DecidableEq, Repr

structure GenaiResponse where
  candidates : List Candidate
  deriving DecidableEq, Repr

/-- Outcome of the `client.models.generate_content` call: a returned
response object, a raised `google.genai.errors.APIError` (how the SDK
surfaces non-2xx HTTP statuses such as 429), or any other raised
exception (timeouts, connection errors, ...). -/
inductive TransportOutcome where
  | response (r : GenaiResponse)
  | apiError (detail : String)
  | otherError (detail : String)
  deriving DecidableEq, Repr

/-- Oracles for the external libraries used by `call_gemini_image_api`:
`imageOpen` models `PIL.Image.open(BytesIO(image_bytes))` (`none` means
the call raised, e.g. `UnidentifiedImageError` on bytes that are not an
image); `savePNG` models `image.save(temp_buffer, format="PNG")` followed
by `temp_buffer.getvalue()`; `generateContent` models the network call. -/
structure AppEnv where
  imageOpen : List Nat → Option PILImage
  savePNG : PILImage → List Nat
  generateContent : GenaiRequest → TransportOutcome

/-- Python string interpolation of a value that may be `None`
(`f"...{prompt}..."` renders `None` as the text `None`). -/
def pyStr : Option String → String
  | none => "None"
  | some s => s

/-! ## Generation Client: `call_gemini_image_api` (`app.py:36-109`) -/

/-- The request `app.py:58-64` builds: model `gemini-2.5-flash`, contents
`[image, instruction string]`, and no `config` (so no response schema and
no mime-type tag; the `mime_type` argument of `call_gemini_image_api` is
never used). -/
def geminiRequest (image : PILImage) (prompt : Option String) : GenaiRequest :=
  { model := "gemini-2.5-flash"
    contents :=
      [.image image,
       .text ("Perform image-to-image modification based on this instruction: " ++
         pyStr prompt ++ ". Return only the resulting image.")]
    config := none }

/-- `call_gemini_image_api` (`app.py:36-109`), instrumented with the
number of `generate_content` transport calls made. The whole body is one
`try`: if `Image.open` raises, the generic `except` returns `None` with
no transport call; if `generate_content` raises (`APIError` or any other
exception) the handlers return `None`; otherwise the response object is
ignored and the placeholder path (`app.py:94-102`) re-encodes the input
image as PNG and returns its base64 string. -/
def call_gemini_run (env : AppEnv) (prompt : Option String) (image_bytes : List Nat)
    (mime_type : Option String) : Option String × Nat :=
  match env.imageOpen image_bytes with
  | none => (none, 0)
  | some image =>
    match env.generateContent (geminiRequest image prompt) with
    | .apiError _ => (none, 1)
    | .otherError _ => (none, 1)
    | .response _ =>
        let generated_image_bytes := env.savePNG image
        (some (b64encode generated_image_bytes), 1)

/-- Return value of `call_gemini_image_api`: the base64 string of the
generated image, or `None` when an exception was caught. -/
def call_gemini_image_api (env : AppEnv) (prompt : Option String) (image_bytes : List Nat)
    (mime_type : Option String) : Option String :=
  (call_gemini_run env prompt image_bytes mime_type).1

/-! ## Bridge Controller: `main` (`app.py:137-207`) -/

/-- The dict the custom component returns to Python (`user_data`), with
the fields `main` reads via `.get` (each may be absent). -/
structure ComponentValue where
  action : Option String
  prompt : Option String
  imageData : Option String
  mimeType : Option String
  deriving DecidableEq, Repr

/-- The dict stored in `st.session_state.result_payload`
(`app.py:173-183`): `action` is always `'result'`. -/
structure ResultPayload where
  action : String
  base64Data : Option String
  error : Option String
  deriving DecidableEq, Repr

/-- The `st.session_state` fields `main` touches. -/
structure SessionState where
  processing : Option Bool
  result_payload : Option ResultPayload
  deriving DecidableEq, Repr

/-- Observable outcome of one execution of `main`. -/
structure StepOut where
  state : SessionState
  /-- whether `call_gemini_image_api` was invoked in this execution -/
  apiInvoked : Bool
  /-- whether `st.rerun()` was reached (it raises, ending the script) -/
  rerun : Bool
  /-- the payload injected back to the front end by step 4
  (`components.html`), if that step ran -/
  relayed : Option ResultPayload
  deriving Repr

/-- Python truthiness of `result_b64` at `app.py:163` (`if result_b64:`):
`None` and the empty string are falsy. -/
def pyTruthyStr : Option String → Bool
  | none => false
  | some s => s ≠ ""

/-- Steps 4 of `main` (`app.py:189-207`): if `result_payload` is in the
session state, pop it and inject it into the frontend via
`components.html`. -/
def relayStep (st : SessionState) : StepOut :=
  match st.result_payload with
  | some p =>
      { state := { st with result_payload := none }
        apiInvoked := false, rerun := false, relayed := some p }
  | none => { state := st, apiInvoked := false, rerun := false, relayed := none }

/-- One full execution of `main` (`app.py:137-207`) given the component
value returned by `transmutation_forge()` (`None` when the component has
sent nothing back) and the current `st.session_state`. Returns `.error`
when an exception escapes `main` (the `base64.b64decode` call at
`app.py:154` is not inside any `try`). When the generate branch runs,
`st.rerun()` ends the execution before step 4, so nothing is relayed in
that same execution. -/
def mainStep (env : AppEnv) (user_data : Option ComponentValue) (st : SessionState) :
    Except PyError StepOut :=
  match user_data with
  | some d =>
    if d.action == some "generate" then
      let st1 := { st with processing := some true }
      let prompt := d.prompt
      let b64_data := d.imageData
      let mime_type := d.mimeType
      match pyB64decodeOpt b64_data with
      | .error e => .error e
      | .ok image_bytes =>
        let result_b64 := call_gemini_image_api env prompt image_bytes mime_type
        let st2 := { st1 with processing := some false }
        let payload : ResultPayload :=
          if pyTruthyStr result_b64 then
            { action := "result", base64Data := result_b64, error := none }
          else
            { action := "result", base64Data := none,
              error := some "API call failed. Check server logs." }
        .ok { state := { st2 with result_payload := some payload }
              apiInvoked := true, rerun := true, relayed := none }
    else .ok (relayStep st)
  | none => .ok (relayStep st)

/-- `st.session_state` at the first execution of a session: no keys set. -/
def initState : SessionState := { processing := none, result_payload := none }

/-! ## Startup: configuration and client initialisation (`app.py:20-31`) -/

/-- Outcome of the module-level startup code: `halted` means `st.stop()`
was reached (after `st.error`), ending the script before `main` ran. -/
inductive StartupOutcome where
  | halted (message : String)
  | ready (api_key : String)
  deriving DecidableEq, Repr

/-- `app.py:20-24`: read `st.secrets["GEMINI_API_KEY"]`; on `KeyError`,
show an error and `st.stop()`. The secrets store is a key-value map; this
is the only secret the script reads. -/
def readApiKey (secrets : List (String × String)) : StartupOutcome :=
  match secrets.lookup "GEMINI_API_KEY" with
  | none => .halted "GEMINI_API_KEY not found in Streamlit secrets. Please configure it."
  | some k => .ready k

/-- Result of one whole script execution, startup included. -/
structure ScriptOut where
  /-- `st.stop()` ended the script during startup -/
  haltedAtStartup : Bool
  /-- the main UI component (`transmutation_forge`) was rendered -/
  uiRendered : Bool
  /-- outcome of `main`, when it ran -/
  mainResult : Option (Except PyError StepOut)
  deriving Repr

/-- One whole script execution (`app.py` top to bottom): startup
(API key lookup, client initialisation — `clientInitOk` models whether
`genai.Client(api_key=...)` raised), then `main`, which first renders the
component (`transmutation_forge()`), then processes its value. -/
def runScript (env : AppEnv) (clientInitOk : String → Bool)
    (secrets : List (String × String)) (user_data : Option ComponentValue)
    (st : SessionState) : ScriptOut :=
  match readApiKey secrets with
  | .halted _ => { haltedAtStartup := true, uiRendered := false, mainResult := none }
  | .ready key =>
      if clientInitOk key then
        { haltedAtStartup := false, uiRendered := true
          mainResult := some (mainStep env user_data st) }
      else
        { haltedAtStartup := true, uiRendered := false, mainResult := none }

/-! ## Session Store (spec §3 "Session", §4.1)

The uploaded image is held on the browser side: the repository's
`frontend/` directory (referenced at `app.py:115-123`) is not part of
`src/`, so the store itself is modelled from the spec. -/

/-- Modelled from the spec: the Session record (§3) — `sourceImage` is
the binary data of the currently uploaded image or absent, and
`sourceFilename` its display name or the "no image" sentinel. The
`frontend/` implementation of this store is missing from `src/`. -/
structure Session where
  sourceImage : Option (List Nat)
  sourceFilename : Option String
  deriving DecidableEq, Repr

/-- Modelled from the spec: a session is created empty at the first
execution (§3). -/
def Session.empty : Session := { sourceImage := none, sourceFilename := none }

/-- Modelled from the spec: `put(image_bytes, filename)` replaces the
stored image atomically (§4.1). -/
def Session.put (_ : Session) (image_bytes : List Nat) (filename : String) : Session :=
  { sourceImage := some image_bytes, sourceFilename := some filename }

/-- Modelled from the spec: `clear()` resets to empty (§4.1). -/
def Session.clear (_ : Session) : Session := Session.empty

/-- Modelled from the spec: the UI events that cause a stateless backend
re-execution (§4.1, §8): an upload, an edit of the prompt text box, a
benign refresh, or a generate trigger. -/
inductive BackendEvent where
  | upload (bytes : List Nat) (filename : String)
  | promptEdit (text : String)
  | refresh
  | generate (prompt : String)
  deriving DecidableEq, Repr

def BackendEvent.isUpload : BackendEvent → Bool
  | .upload _ _ => true
  | _ => false

def BackendEvent.isGenerate : BackendEvent → Bool
  | .generate _ => true
  | _ => false

/-- Modelled from the spec: the effect of one backend re-execution on the
session — the session is "mutated only by an upload event" and "persists
across re-executions of the stateless backend" (§3). -/
def sessionExec (s : Session) : BackendEvent → Session
  | .upload bytes filename => s.put bytes filename
  | .promptEdit _ => s
  | .refresh => s
  | .generate _ => s

/-- A sequence of backend re-executions, applied in order. -/
def applyEvents (events : List BackendEvent) (s : Session) : Session :=
  events.foldl sessionExec s

/-! ## Concrete oracle assignments, used to evaluate the embedding -/

/-- A concrete oracle assignment with a chosen transport: any nonempty
byte string parses as an image whose pixel data is those bytes, and PNG
re-encoding returns the pixel data unchanged. -/
def testEnvWith (t : GenaiRequest → TransportOutcome) : AppEnv :=
  { imageOpen := fun b => if b = [] then none else some ⟨b⟩
    savePNG := fun img => img.pixels
    generateContent := t }

/-- A service reply with an empty candidate list. -/
def plainResponse : GenaiResponse := { candidates := [] }

/-- Transport that always succeeds with a contentless reply. -/
def testEnv : AppEnv := testEnvWith fun _ => .response plainResponse

/-- Transport that always fails with an HTTP 429 `APIError`. -/
def env429 : AppEnv := testEnvWith fun _ => .apiError "429 RESOURCE_EXHAUSTED"

/-- The model-produced JSON text of spec §8's scripted 200 reply. -/
def scriptedText : String :=
  "\x7b\"image_data_base64\": \"QQ==\", \"description\": \"ok\"\x7d"

/-- Transport scripted to return HTTP 200 whose
`candidates[0].content.parts[0].text` is `scriptedText`. -/
def scripted200Env : AppEnv := testEnvWith fun _ =>
  .response { candidates := [{ content := { parts := [{ text := some scriptedText }] } }] }

/-- The generate trigger payload used as a concrete input. -/
def cTrigger : ComponentValue :=
  { action := some "generate", prompt := some "make it blue",
    imageData := some "QQ==", mimeType := some "image/png" }

/-! ## Claims -/

/-- The payload `app.py:173-177` stores on a truthy `result_b64`. -/
def okPayload (b64 : String) : ResultPayload :=
  { action := "result", base64Data := some b64, error := none }

/-- The payload `app.py:179-183` stores on a falsy `result_b64`. -/
def failPayload : ResultPayload :=
  { action := "result", base64Data := none,
    error := some "API call failed. Check server logs." }

/-- The session state after the generate branch of `main` ran. -/
def stateAfter (p : ResultPayload) : SessionState :=
  { processing := some false, result_payload := some p }

/-- The observable outcome of an execution of `main` that processed a
generate trigger: the API was invoked, `st.rerun()` was reached, and
nothing was relayed in this execution. -/
def generateStepOut (p : ResultPayload) : StepOut :=
  { state := stateAfter p, apiInvoked := true, rerun := true, relayed := none }

/-- C1: the claim says a processed generate trigger is cleared so that a
re-execution without a fresh trigger never invokes the Generation Client
again. The code violates this: `main` never clears the trigger (the
component value persists across `st.rerun()`), so the very next
re-execution of the same execution context processes the same trigger and
invokes `call_gemini_image_api` a second time (`apiInvoked = true` in
both executions, with `rerun = true` each time — an unbounded replay
loop). -/
theorem c1_trigger_never_cleared :
    mainStep testEnv (some cTrigger) initState =
      .ok (generateStepOut (okPayload "QQ==")) ∧
    mainStep testEnv (some cTrigger) (stateAfter (okPayload "QQ==")) =
      .ok (generateStepOut (okPayload "QQ==")) := by
  exact ⟨rfl, rfl⟩

/-- C2: the claim says a generate trigger with an empty prompt never
invokes the Generation Client and always yields a result whose error
field is set. The code violates this: `main` performs no validation —
with `prompt = ""` and a valid image it still invokes
`call_gemini_image_api` (`apiInvoked = true`) and produces a result
whose `error` is `none`. -/
theorem c2_no_input_validation :
    mainStep testEnv
        (some { action := some "generate", prompt := some "",
                imageData := some "QQ==", mimeType := some "image/png" })
        initState =
      .ok (generateStepOut (okPayload "QQ==")) := by
  exact rfl

/-- C3: the claim says the client parses `candidates[0].content.parts[0]
.text` of a 2xx reply as JSON and returns its `image_data_base64` field,
so the scripted reply should yield `base64Data = "QQ=="`. The code
violates this: the response object is ignored entirely and the
placeholder path returns the base64 of the re-encoded *input* image —
with input byte `[66]` the result is `"Qg=="`, not the scripted
`"QQ=="`; no JSON parsing or `MalformedResponse` path exists. -/
theorem c3_response_ignored :
    call_gemini_image_api scripted200Env (some "make it blue") [66] (some "image/png") =
      some "Qg==" ∧ ("Qg==" : String) ≠ "QQ==" := by
  exact ⟨rfl, by decide⟩

/-- Characterisation of a successful `call_gemini_image_api` return: the
image opened, and the result is the base64 of its PNG re-encoding. -/
theorem call_gemini_some (env : AppEnv) (prompt : Option String) (image_bytes : List Nat)
    (mime : Option String) (r : String)
    (h : call_gemini_image_api env prompt image_bytes mime = some r) :
    ∃ img, env.imageOpen image_bytes = some img ∧ r = b64encode (env.savePNG img) := by
  unfold call_gemini_image_api call_gemini_run at h
  cases hopen : env.imageOpen image_bytes with
  | none => rw [hopen] at h; simp at h
  | some img =>
      rw [hopen] at h
      dsimp only at h
      refine ⟨img, rfl, ?_⟩
      cases htr : env.generateContent (geminiRequest img prompt) with
      | response r2 => rw [htr] at h; simp at h; exact h.symm
      | apiError d => rw [htr] at h; simp at h
      | otherError d => rw [htr] at h; simp at h

/-- C4: whenever `call_gemini_image_api` returns a non-`None` string,
that string is the base64 encoding of the input image re-encoded as PNG,
and it is fully determined by `image_bytes` alone: two calls that agree
on the PIL oracles but differ arbitrarily in prompt, `mime_type`, and
the transport's reply content return the same successful output. -/
theorem c4_output_determined_by_image (env₁ env₂ : AppEnv)
    (prompt₁ prompt₂ mime₁ mime₂ : Option String) (image_bytes : List Nat)
    (r₁ r₂ : String)
    (hopen : env₁.imageOpen = env₂.imageOpen) (hsave : env₁.savePNG = env₂.savePNG)
    (h₁ : call_gemini_image_api env₁ prompt₁ image_bytes mime₁ = some r₁)
    (h₂ : call_gemini_image_api env₂ prompt₂ image_bytes mime₂ = some r₂) :
    r₁ = r₂ ∧
    ∃ img, env₁.imageOpen image_bytes = some img ∧ r₁ = b64encode (env₁.savePNG img) := by
  obtain ⟨img₁, hio₁, hr₁⟩ := call_gemini_some env₁ prompt₁ image_bytes mime₁ r₁ h₁
  obtain ⟨img₂, hio₂, hr₂⟩ := call_gemini_some env₂ prompt₂ image_bytes mime₂ r₂ h₂
  rw [← hopen] at hio₂
  rw [hio₁] at hio₂
  obtain rfl : img₁ = img₂ := by injection hio₂
  refine ⟨?_, img₁, hio₁, hr₁⟩
  rw [hr₁, hr₂, hsave]

/-- Witness for C4 at concrete inputs: two environments sharing the PIL
oracles but with different transports and different prompts give the same
successful output on image bytes `[66]`. -/
theorem c4_witness :
    testEnv.imageOpen = scripted200Env.imageOpen ∧
    testEnv.savePNG = scripted200Env.savePNG ∧
    call_gemini_image_api testEnv (some "a") [66] (some "image/png") = some "Qg==" ∧
    call_gemini_image_api scripted200Env none [66] none = some "Qg==" ∧
    ("Qg==" = "Qg==" ∧
      ∃ img, testEnv.imageOpen [66] = some img ∧ "Qg==" = b64encode (testEnv.savePNG img)) := by
  refine ⟨rfl, rfl, rfl, rfl, ?_⟩
  exact c4_output_determined_by_image testEnv scripted200Env (some "a") none
    (some "image/png") none [66] "Qg==" "Qg==" rfl rfl rfl rfl

/-- C5: on a transport failure (`APIError` for a non-2xx status such as
429, or any other raised exception such as a timeout), the client
returns `None` rather than raising, makes exactly one transport call (no
retry), and `main` stores a result payload with `error` set and
`base64Data` absent. -/
theorem c5_transport_failure (env : AppEnv) (d : ComponentValue) (st : SessionState)
    (s : String) (image_bytes : List Nat) (img : PILImage) (detail : String)
    (haction : d.action = some "generate")
    (hdata : d.imageData = some s)
    (hdecode : pyB64decode s = .ok image_bytes)
    (hopen : env.imageOpen image_bytes = some img)
    (hfail : ∀ req, env.generateContent req = .apiError detail ∨
      env.generateContent req = .otherError detail) :
    call_gemini_run env d.prompt image_bytes d.mimeType = (none, 1) ∧
    mainStep env (some d) st = .ok (generateStepOut failPayload) := by
  have hrun : call_gemini_run env d.prompt image_bytes d.mimeType = (none, 1) := by
    unfold call_gemini_run
    rw [hopen]
    dsimp only
    rcases hfail (geminiRequest img d.prompt) with h | h <;> rw [h]
  refine ⟨hrun, ?_⟩
  obtain ⟨da, dp, di, dm⟩ := d
  dsimp only at haction hdata hrun
  subst haction
  subst hdata
  simp [mainStep, pyB64decodeOpt, hdecode, call_gemini_image_api, hrun, pyTruthyStr,
    generateStepOut, stateAfter, failPayload]

/-- Witness for C5: the 429-scripted transport at the concrete trigger. -/
theorem c5_witness :
    cTrigger.action = some "generate" ∧
    cTrigger.imageData = some "QQ==" ∧
    pyB64decode "QQ==" = .ok [65] ∧
    env429.imageOpen [65] = some ⟨[65]⟩ ∧
    call_gemini_run env429 cTrigger.prompt [65] cTrigger.mimeType = (none, 1) ∧
    mainStep env429 (some cTrigger) initState = .ok (generateStepOut failPayload) := by
  have h := c5_transport_failure env429 cTrigger initState "QQ==" [65] ⟨[65]⟩
    "429 RESOURCE_EXHAUSTED" rfl rfl rfl rfl (fun _ => Or.inl rfl)
  exact ⟨rfl, rfl, rfl, rfl, h.1, h.2⟩

/-- C6: the claim says a malformed-base64 `imageData` is caught at the
Bridge Controller boundary and converted into an error result. The code
violates this: `base64.b64decode` at `app.py:154` is not inside any
`try`, so on the wrongly padded input `"QQ"` the `binascii.Error`
escapes `main` uncaught instead of becoming a result with `error` set. -/
theorem c6_decode_error_uncaught :
    mainStep testEnv
        (some { action := some "generate", prompt := some "make it blue",
                imageData := some "QQ", mimeType := some "image/png" })
        initState =
      .error (.binasciiError "Incorrect padding") := by
  exact rfl

/-- Base64 alphabet characters are not whitespace. -/
theorem b64Char_not_ws (c : Char) (h : (b64CharVal c).isSome) :
    c ≠ ' ' ∧ c ≠ '\n' ∧ c ≠ '\r' ∧ c ≠ '\t' := by
  refine ⟨?_, ?_, ?_, ?_⟩ <;> rintro rfl <;> simp [b64CharVal] at h

/-- C7 counterexample: `"QR=="` is validly padded — `base64.b64decode`
accepts it, yielding the byte `[65]` — but re-encoding gives `"QQ=="`,
which differs from `"QR=="` even after stripping the `=` padding, so
`encode(decode(s)) == s` (mod canonical padding) fails for it: the
second half of the claimed law does not hold for all validly-padded
strings. -/
theorem c7_counterexample :
    pyB64decode "QR==" = .ok [65] ∧
    b64encode [65] = "QQ==" ∧
    ("QQ==" : String) ≠ "QR==" ∧
    (("QQ==" : String).data.takeWhile fun c => c != '=') ≠
      (("QR==" : String).data.takeWhile fun c => c != '=') := by
  exact ⟨rfl, rfl, by decide, by decide⟩

/-- C7 (amended): `decode(encode(b)) == b` for every byte sequence `b`;
`encode` emits no whitespace or line breaks; and `encode(decode(s)) == s`
holds for every `s` in the canonical image of `encode` (rather than for
every validly-padded string, where it fails — see the counterexample). -/
theorem c7_roundtrip (b : List Nat) (hb : BytesValid b) :
    pyB64decode (b64encode b) = .ok b ∧
    (∀ c ∈ (b64encode b).data, c ≠ ' ' ∧ c ≠ '\n' ∧ c ≠ '\r' ∧ c ≠ '\t') ∧
    (∀ (s : String) (b' : List Nat), s = b64encode b → pyB64decode s = .ok b' →
      b64encode b' = s) := by
  refine ⟨pyB64decode_b64encode b hb, ?_, ?_⟩
  · intro c hc
    have hdecomp : (b64encode b).data =
        (encodeSextets b).map b64AlphaChar ++ List.replicate (padLen b) '=' :=
      b64encodeBytes_decomp b
    rw [hdecomp] at hc
    rcases List.mem_append.mp hc with h | h
    · exact b64Char_not_ws c (mapAlpha_all_alpha _ (encodeSextets_lt b hb) c h)
    · rw [List.eq_of_mem_replicate h]
      exact ⟨by decide, by decide, by decide, by decide⟩
  · intro s b' hs hdec
    subst hs
    rw [pyB64decode_b64encode b hb] at hdec
    injection hdec with h
    rw [← h]

/-- Witness for C7 at the concrete byte string `[72, 105]`. -/
theorem c7_witness :
    BytesValid [72, 105] ∧
    (pyB64decode (b64encode [72, 105]) = .ok [72, 105] ∧
     (∀ c ∈ (b64encode [72, 105]).data, c ≠ ' ' ∧ c ≠ '\n' ∧ c ≠ '\r' ∧ c ≠ '\t') ∧
     (∀ (s : String) (b' : List Nat), s = b64encode [72, 105] → pyB64decode s = .ok b' →
       b64encode b' = s)) :=
  ⟨by decide, c7_roundtrip [72, 105] (by decide)⟩

/-- Backend re-executions that contain no upload leave the session
unchanged. -/
theorem applyEvents_no_upload (evs : List BackendEvent) :
    ∀ t : Session, (∀ e ∈ evs, e.isUpload = false) → applyEvents evs t = t := by
  induction evs with
  | nil => intro t _; rfl
  | cons e es ih =>
      intro t hh
      have he : e.isUpload = false := (hh e (by simp))
      have hrest : ∀ x ∈ es, x.isUpload = false := fun x hx => hh x (by simp [hx])
      cases e with
      | upload b f => simp [BackendEvent.isUpload] at he
      | promptEdit p => exact ih (sessionExec t (.promptEdit p)) hrest
      | refresh => exact ih (sessionExec t .refresh) hrest
      | generate p => exact ih (sessionExec t (.generate p)) hrest

/-- C8: after an upload stores `sourceImage`/`sourceFilename`, any number
of stateless backend re-executions carrying no new trigger (and no new
upload) — e.g. prompt-text edits or refreshes — leave both unchanged. -/
theorem c8_upload_survives (s : Session) (bytes : List Nat) (filename : String)
    (events : List BackendEvent)
    (h : ∀ e ∈ events, e.isUpload = false ∧ e.isGenerate = false) :
    (applyEvents events (s.put bytes filename)).sourceImage = some bytes ∧
    (applyEvents events (s.put bytes filename)).sourceFilename = some filename := by
  rw [applyEvents_no_upload events (s.put bytes filename) fun e he => (h e he).1]
  exact ⟨rfl, rfl⟩

/-- Witness for C8: an upload followed by two prompt edits and a refresh. -/
theorem c8_witness :
    (∀ e ∈ [BackendEvent.promptEdit "make", BackendEvent.refresh,
        BackendEvent.promptEdit "make it blue"],
      e.isUpload = false ∧ e.isGenerate = false) ∧
    ((applyEvents [BackendEvent.promptEdit "make", BackendEvent.refresh,
        BackendEvent.promptEdit "make it blue"]
        (Session.empty.put [66, 67] "cat.png")).sourceImage = some [66, 67] ∧
     (applyEvents [BackendEvent.promptEdit "make", BackendEvent.refresh,
        BackendEvent.promptEdit "make it blue"]
        (Session.empty.put [66, 67] "cat.png")).sourceFilename = some "cat.png") :=
  ⟨by decide, c8_upload_survives Session.empty [66, 67] "cat.png" _ (by decide)⟩

/-- C9: the claim says every request built for the external service
carries the prompt, the image as an inline encoded blob tagged with its
declared mime type, and a declared response schema with fields
`image_data_base64` and `description`. The code violates the mime and
schema parts: `generate_content` is called with no `config` (no response
schema is declared), the contents are a PIL image object plus an
instruction string embedding the prompt (no inline blob tagged with a
mime type), and the `mime_type` argument is never used — the call's
outcome is independent of it. -/
theorem c9_request_has_no_schema (env : AppEnv) (image : PILImage)
    (prompt : Option String) (image_bytes : List Nat) (mime₁ mime₂ : Option String) :
    (geminiRequest image prompt).config = none ∧
    (geminiRequest image prompt).contents =
      [.image image,
       .text ("Perform image-to-image modification based on this instruction: " ++
         pyStr prompt ++ ". Return only the resulting image.")] ∧
    call_gemini_run env prompt image_bytes mime₁ =
      call_gemini_run env prompt image_bytes mime₂ := by
  exact ⟨rfl, rfl, rfl⟩

/-- C10: if `GEMINI_API_KEY` is absent from the secrets store, the script
halts at startup (`st.stop()`): no UI is rendered and `main` never runs;
and the key is the only secret consulted — the script's behaviour depends
on the secrets store only through the `GEMINI_API_KEY` entry. -/
theorem c10_missing_key_halts (env : AppEnv) (clientInitOk : String → Bool)
    (secrets : List (String × String)) (user_data : Option ComponentValue)
    (st : SessionState)
    (habsent : secrets.lookup "GEMINI_API_KEY" = none) :
    runScript env clientInitOk secrets user_data st =
      { haltedAtStartup := true, uiRendered := false, mainResult := none } ∧
    (∀ s₁ s₂ : List (String × String),
      s₁.lookup "GEMINI_API_KEY" = s₂.lookup "GEMINI_API_KEY" →
      runScript env clientInitOk s₁ user_data st =
        runScript env clientInitOk s₂ user_data st) := by
  constructor
  · unfold runScript readApiKey
    rw [habsent]
  · intro s₁ s₂ hagree
    unfold runScript readApiKey
    rw [hagree]

/-- Witness for C10: a secrets store holding only an unrelated secret. -/
theorem c10_witness :
    ([("OTHER_SECRET", "x")] : List (String × String)).lookup "GEMINI_API_KEY" = none ∧
    (runScript testEnv (fun _ => true) [("OTHER_SECRET", "x")] (some cTrigger) initState =
      { haltedAtStartup := true, uiRendered := false, mainResult := none } ∧
    (∀ s₁ s₂ : List (String × String),
      s₁.lookup "GEMINI_API_KEY" = s₂.lookup "GEMINI_API_KEY" →
      runScript testEnv (fun _ => true) s₁ (some cTrigger) initState =
        runScript testEnv (fun _ => true) s₂ (some cTrigger) initState)) :=
  ⟨rfl, c10_missing_key_halts testEnv (fun _ => true) [("OTHER_SECRET", "x")]
    (some cTrigger) initState rfl⟩

end Everglow
